import Mathlib

/-!
goappstructure: error wrapper, command-line environment, YAML configuration

A shallow embedding of the four Go source files

* `app/errorz/errorz.go`  (namespace `errorz`)
* `configs/cmdargs.go`, `configs/yaml.go`, `configs/config.go`  (namespace `configs`)

Conventions of the embedding.

* A Go `map[K]string` literal is an association list; indexing it is `mapIndex`,
  which yields the zero value `""` for a key that is not present, as Go does.
* A Go `error` value is `Option ε` for an arbitrary type `ε` of non-nil errors;
  `none` is `nil`.
* Go `int` fields are `Int`; the code only copies and prints them.
* `fmt.Sprintf` with the verbs `%s`, `%d`, `%v` on strings, ints and bools is the
  concatenation of the literal pieces with the printed arguments.
* The two library calls of `ReadYaml` (`os.Open`, `yaml.Decoder.Decode`) and the
  value that `flag.Parse` leaves in the `env` variable are parameters.
* `ReadYaml` is written once, over an arbitrary monad offering `os.Open`, the decoder
  and `Close` as actions. It is run in a world that answers like given pure functions
  and records every action together with the argument the body passed to it.
-/

set_option linter.dupNamespace false

/-- Indexing of a Go map literal: the value stored under `k`, or the zero value of
the value type when `k` is not a key. -/
def mapIndex (m : List (String × String)) (k : String) : String :=
  (m.lookup k).getD ""

/-- A string occurs as a contiguous substring of another. -/
def containsSubstring (s sub : String) : Prop :=
  sub.data <:+: s.data

namespace errorz

/-- Go `type ErrorCode string`. -/
abbrev ErrorCode := String

def ERUnknownSqlError : ErrorCode := "A001"
def ERNoRecordFound : ErrorCode := "A011"
def ERRecordExists : ErrorCode := "A012"

/-- Go `type Error struct { code ErrorCode; Err error }`. -/
structure Error (ε : Type) where
  code : ErrorCode
  Err : Option ε
deriving DecidableEq, Repr

/-- Go `var errorStatus = map[ErrorCode]string{...}`. -/
def errorStatus : List (ErrorCode × String) :=
  [ (ERUnknownSqlError, "unknown sql error returned"),
    (ERRecordExists, "record already exists"),
    (ERNoRecordFound, "record does not exist") ]

/-- Go `func (er *Error) Debug() error`. -/
def Error.Debug {ε : Type} (er : errorz.Error ε) : Option ε :=
  er.Err

/-- Go `func New(code ErrorCode, err error) *Error`: `&Error{code, err}`. -/
def New {ε : Type} (code : ErrorCode) (err : Option ε) : Error ε :=
  { code := code, Err := err }

/-- Go `func (er *Error) Error() string`:
`fmt.Sprintf("Code <%s>: %s", er.code, errorStatus[er.code])`. -/
def Error.Error {ε : Type} (er : errorz.Error ε) : String :=
  "Code <" ++ er.code ++ ">: " ++ mapIndex errorStatus er.code

end errorz

namespace configs

def EnvDev : String := "development"
def EnvStaging : String := "staging"
def EnvProd : String := "production"

/-- Go `type CmdArgsConfig struct { Environment string }`. -/
structure CmdArgsConfig where
  Environment : String
deriving DecidableEq, Repr

/-- The zero value of `CmdArgsConfig` (Go `var config CmdArgsConfig`). -/
def CmdArgsConfig.zero : CmdArgsConfig := { Environment := "" }

/-- The value of a string variable registered with `flag.StringVar(&v, name, dflt, _)`
after `flag.Parse()`: the value given on the command line when the option is
present (`some v`), the registered default when it is absent (`none`). -/
def flagStringVar (dflt : String) (given : Option String) : String :=
  given.getD dflt

/-- Go `func ParseCMDArgs() CmdArgsConfig`. The argument is what the command line
gives for the option `env` (`none` when the option is absent). The `switch` has no
`default` branch, so `config` keeps its zero value when no `case` matches.
The `log.Println(env)` line does not affect the returned value and is left out. -/
def ParseCMDArgs (envOption : Option String) : CmdArgsConfig :=
  let env := flagStringVar EnvDev envOption
  let config := CmdArgsConfig.zero
  if env = "dev" ∨ env = "development" then
    { config with Environment := EnvDev }
  else if env = "staging" then
    { config with Environment := EnvStaging }
  else if env = "prod" ∨ env = "production" then
    { config with Environment := EnvProd }
  else
    config

def yamlDevPath : String := "config.dev.yml"
def yamlStagingPath : String := "config.staging.yml"
def yamlProdPath : String := "config.yml"

/-- Go `var envYamlMapping = map[string]string{...}`. -/
def envYamlMapping : List (String × String) :=
  [ (EnvDev, yamlDevPath),
    (EnvStaging, yamlStagingPath),
    (EnvProd, yamlProdPath) ]

/-- The anonymous struct of the field `Application` of `YamlConfig`. -/
structure YamlApplication where
  Port : Int
deriving DecidableEq, Repr

/-- The anonymous struct of the field `Database` of `YamlConfig`. -/
structure YamlDatabase where
  User : String
  Password : String
  Name : String
  Host : String
  Port : Int
  Client : String
  SSLCertPath : String
  SSLKeyPath : String
  RootCertPath : String
deriving DecidableEq, Repr

/-- Go `type YamlConfig struct { Application struct{...}; Database struct{...} }`. -/
structure YamlConfig where
  Application : YamlApplication
  Database : YamlDatabase
deriving DecidableEq, Repr

/-- The zero value `YamlConfig{}`: every int is `0`, every string is `""`. -/
def YamlConfig.zero : YamlConfig :=
  { Application := { Port := 0 },
    Database :=
      { User := "", Password := "", Name := "", Host := "", Port := 0, Client := "",
        SSLCertPath := "", SSLKeyPath := "", RootCertPath := "" } }

/-- The two library calls `ReadYaml` makes that can fail. `ε` is the type of
non-nil errors and `φ` the type of open file handles.

* `osOpen path` is `os.Open(path)`: a handle, or an error.
* `yamlDecode f c` is `yaml.NewDecoder(f).Decode(&config)` with `config = c` before
  the call: the contents of `config` after the call (the decoder may have written
  some fields before it fails) together with the returned error. -/
structure Sys (ε φ : Type) where
  osOpen : String → Except ε φ
  yamlDecode : φ → YamlConfig → YamlConfig × Option ε

/-- The calls on the outside world made during one run of `ReadYaml`, in order. -/
inductive Call (φ : Type) where
  | osOpen (path : String)
  | decode (f : φ)
  | close (f : φ)
deriving DecidableEq, Repr

/-- The three calls of `ReadYaml` as actions of a monad `m`, the only way the
function body can reach the outside world: `osOpen path` is `os.Open(path)`,
`decode f c` is `yaml.NewDecoder(f).Decode(&config)` with `config = c` before the
call, `close f` is `f.Close()` (its result is dropped by the `defer`). -/
structure Ops (m : Type → Type) (ε φ : Type) where
  osOpen : String → m (Except ε φ)
  decode : φ → YamlConfig → m (YamlConfig × Option ε)
  close : φ → m Unit

/-- Go `func ReadYaml(cmdArgs CmdArgsConfig) (YamlConfig, error)`, over any monad that
provides the three calls. The deferred `f.Close()` is registered only after `os.Open`
succeeded and then runs on both remaining exit paths, after the result is fixed. -/
def ReadYamlM {m : Type → Type} [Monad m] {ε φ : Type} (ops : Ops m ε φ)
    (cmdArgs : CmdArgsConfig) : m (YamlConfig × Option ε) := do
  let yamlPath := mapIndex envYamlMapping cmdArgs.Environment
  match ← ops.osOpen yamlPath with
  | .error err => return (YamlConfig.zero, some err)
  | .ok f =>
    let config := YamlConfig.zero
    let (config, err) ← ops.decode f config
    match err with
    | some err =>
      ops.close f
      return (YamlConfig.zero, some err)
    | none =>
      ops.close f
      return (config, none)

/-- The world `sys` with a recorder: each action answers as `sys` does and appends
itself, with the argument it was really given, to the list of calls made so far. -/
def Sys.recording {ε φ : Type} (sys : Sys ε φ) : Ops (StateM (List (Call φ))) ε φ :=
  { osOpen := fun path calls => (sys.osOpen path, calls ++ [Call.osOpen path]),
    decode := fun f c calls => (sys.yamlDecode f c, calls ++ [Call.decode f]),
    close := fun f calls => ((), calls ++ [Call.close f]) }

/-- One run of `ReadYaml` in the world `sys`, started with no call made: the Go result
pair and the calls the recorder has seen. -/
def ReadYamlTraced {ε φ : Type} (sys : Sys ε φ) (cmdArgs : CmdArgsConfig) :
    (YamlConfig × Option ε) × List (Call φ) :=
  Id.run ((ReadYamlM sys.recording cmdArgs).run [])

/-- The Go result pair `(YamlConfig, error)` of `ReadYaml`. -/
def ReadYaml {ε φ : Type} (sys : Sys ε φ) (cmdArgs : CmdArgsConfig) : YamlConfig × Option ε :=
  (ReadYamlTraced sys cmdArgs).1

/-- The paths passed to `os.Open` in a list of calls. -/
def openedPaths {φ : Type} (calls : List (Call φ)) : List String :=
  calls.filterMap fun c =>
    match c with
    | Call.osOpen path => some path
    | _ => none

/-- Go `type Database struct {...}`. -/
structure Database where
  User : String
  Host : String
  Port : Int
  DBName : String
  Client : String
  SSL : Bool
  SSLMode : String
  SSLCert : String
  SSLKey : String
  RootCert : String
deriving DecidableEq, Repr

/-- Go `func (d Database) Stringify() string`:
`fmt.Sprintf("user=%v dbname=%v host=%v port=%v sslmode=%v sslrootcert=%v sslkey=%v sslcert=%v ", ...)`. -/
def Database.Stringify (d : Database) : String :=
  "user=" ++ d.User ++ " " ++
  "dbname=" ++ d.DBName ++ " " ++
  "host=" ++ d.Host ++ " " ++
  "port=" ++ toString d.Port ++ " " ++
  "sslmode=" ++ d.SSLMode ++ " " ++
  "sslrootcert=" ++ d.RootCert ++ " " ++
  "sslkey=" ++ d.SSLKey ++ " " ++
  "sslcert=" ++ d.SSLCert ++ " "

/-- Go `func (d Database) String() string`:
`fmt.Sprintf("%s://%s@%s:%d/%s?ssl=%v&sslmode=%s&sslrootcert=%s&sslkey=%s&sslcert=%s", ...)`. -/
def Database.String (d : Database) : String :=
  d.Client ++ "://" ++ d.User ++ "@" ++ d.Host ++ ":" ++ toString d.Port ++ "/" ++ d.DBName
    ++ "?ssl=" ++ toString d.SSL ++ "&sslmode=" ++ d.SSLMode ++ "&sslrootcert=" ++ d.RootCert
    ++ "&sslkey=" ++ d.SSLKey ++ "&sslcert=" ++ d.SSLCert

/-- Go `type Config struct { Port int; DB Database }`. -/
structure Config where
  Port : Int
  DB : Database
deriving DecidableEq, Repr

/-- Go `func GetConfig(cfg YamlConfig) *Config`. -/
def GetConfig (cfg : YamlConfig) : Config :=
  { Port := cfg.Application.Port,
    DB :=
      { Client := cfg.Database.Client,
        User := cfg.Database.User,
        Host := cfg.Database.Host,
        Port := cfg.Database.Port,
        DBName := cfg.Database.Name,
        SSL := true,
        SSLMode := "require",
        SSLCert := cfg.Database.SSLCertPath,
        SSLKey := cfg.Database.SSLKeyPath,
        RootCert := cfg.Database.RootCertPath } }

/-- Two decoded documents agree on every field other than `database.password`. -/
def sameExceptPassword (a b : YamlConfig) : Prop :=
  a.Application.Port = b.Application.Port ∧
  a.Database.User = b.Database.User ∧
  a.Database.Name = b.Database.Name ∧
  a.Database.Host = b.Database.Host ∧
  a.Database.Port = b.Database.Port ∧
  a.Database.Client = b.Database.Client ∧
  a.Database.SSLCertPath = b.Database.SSLCertPath ∧
  a.Database.SSLKeyPath = b.Database.SSLKeyPath ∧
  a.Database.RootCertPath = b.Database.RootCertPath

instance (a b : YamlConfig) : Decidable (sameExceptPassword a b) := by
  unfold sameExceptPassword; infer_instance

/-- A document as in the end-to-end example of the specification, with the given
password. -/
def exampleYaml (password : String) : YamlConfig :=
  { Application := { Port := 8080 },
    Database :=
      { User := "u", Password := password, Name := "db", Host := "h", Port := 5432,
        Client := "postgres", SSLCertPath := "c.pem", SSLKeyPath := "k.pem",
        RootCertPath := "r.pem" } }

/-- A sample world: only `config.dev.yml` and `config.staging.yml` exist; decoding
the first fails after the application port has been written, decoding the second
succeeds. Handles are numbers, errors are messages. -/
def sampleSys : Sys String Nat :=
  { osOpen := fun path =>
      if path = "config.dev.yml" then .ok 3
      else if path = "config.staging.yml" then .ok 4
      else .error "open: no such file or directory",
    yamlDecode := fun f c =>
      if f = 3 then
        ({ c with Application := { Port := 8080 } }, some "yaml: line 2: cannot decode")
      else (exampleYaml "s3cret", none) }

end configs

/-! ## Lemmas -/

namespace configs

theorem mapIndex_envYamlMapping_dev : mapIndex envYamlMapping EnvDev = "config.dev.yml" := by
  decide

theorem mapIndex_envYamlMapping_staging :
    mapIndex envYamlMapping EnvStaging = "config.staging.yml" := by
  decide

theorem mapIndex_envYamlMapping_prod : mapIndex envYamlMapping EnvProd = "config.yml" := by
  decide

/-- The `switch` of `ParseCMDArgs` leaves the zero value in place when no `case`
matches. -/
theorem ParseCMDArgs_no_case (env : String)
    (h1 : env ≠ "dev") (h2 : env ≠ "development") (h3 : env ≠ "staging")
    (h4 : env ≠ "prod") (h5 : env ≠ "production") :
    ParseCMDArgs (some env) = { Environment := "" } := by
  simp [ParseCMDArgs, flagStringVar, CmdArgsConfig.zero, h1, h2, h3, h4, h5]

/-- The run of `ReadYaml` in a recording world, by the outcome of the two calls that
can fail. -/
theorem ReadYamlTraced_eq {ε φ : Type} (sys : Sys ε φ) (cmdArgs : CmdArgsConfig) :
    ReadYamlTraced sys cmdArgs =
      match sys.osOpen (mapIndex envYamlMapping cmdArgs.Environment) with
      | .error err =>
        ((YamlConfig.zero, some err), [Call.osOpen (mapIndex envYamlMapping cmdArgs.Environment)])
      | .ok f =>
        match sys.yamlDecode f YamlConfig.zero with
        | (_, some err) =>
          ((YamlConfig.zero, some err),
            [Call.osOpen (mapIndex envYamlMapping cmdArgs.Environment), Call.decode f, Call.close f])
        | (c, none) =>
          ((c, none),
            [Call.osOpen (mapIndex envYamlMapping cmdArgs.Environment), Call.decode f, Call.close f]) := by
  cases hopen : sys.osOpen (mapIndex envYamlMapping cmdArgs.Environment) with
  | error err =>
    simp [ReadYamlTraced, ReadYamlM, Sys.recording, StateT.run, bind, StateT.bind, pure, StateT.pure, Id.run, hopen]
  | ok f =>
    rcases hdec : sys.yamlDecode f YamlConfig.zero with ⟨c, _ | err⟩ <;>
    simp [ReadYamlTraced, ReadYamlM, Sys.recording, StateT.run, bind, StateT.bind, pure, StateT.pure, Id.run, hopen, hdec]

theorem ReadYamlTraced_openedPaths {ε φ : Type} (sys : Sys ε φ) (cmdArgs : CmdArgsConfig) :
    openedPaths (ReadYamlTraced sys cmdArgs).2
      = [mapIndex envYamlMapping cmdArgs.Environment] := by
  cases hopen : sys.osOpen (mapIndex envYamlMapping cmdArgs.Environment) with
  | error err => simp [ReadYamlTraced_eq, hopen, openedPaths]
  | ok f =>
    rcases hdec : sys.yamlDecode f YamlConfig.zero with ⟨c, _ | err⟩ <;>
      simp [ReadYamlTraced_eq, hopen, hdec, openedPaths]

theorem ReadYaml_of_open_error {ε φ : Type} (sys : Sys ε φ) (cmdArgs : CmdArgsConfig) (e : ε)
    (h : sys.osOpen (mapIndex envYamlMapping cmdArgs.Environment) = .error e) :
    ReadYaml sys cmdArgs = (YamlConfig.zero, some e) := by
  simp [ReadYaml, ReadYamlTraced_eq, h]

theorem ReadYaml_of_decode_error {ε φ : Type} (sys : Sys ε φ) (cmdArgs : CmdArgsConfig)
    (f : φ) (c : YamlConfig) (e : ε)
    (h : sys.osOpen (mapIndex envYamlMapping cmdArgs.Environment) = .ok f)
    (hd : sys.yamlDecode f YamlConfig.zero = (c, some e)) :
    ReadYaml sys cmdArgs = (YamlConfig.zero, some e) := by
  simp [ReadYaml, ReadYamlTraced_eq, h, hd]

theorem ReadYaml_of_decode_ok {ε φ : Type} (sys : Sys ε φ) (cmdArgs : CmdArgsConfig)
    (f : φ) (c : YamlConfig)
    (h : sys.osOpen (mapIndex envYamlMapping cmdArgs.Environment) = .ok f)
    (hd : sys.yamlDecode f YamlConfig.zero = (c, none)) :
    ReadYaml sys cmdArgs = (c, none) := by
  simp [ReadYaml, ReadYamlTraced_eq, h, hd]

end configs

/-! ## The error wrapper -/

namespace errorz

/-- C8: for every cause, `nil` included, the message of `New("A012", cause)` contains
"record already exists"; the message of `New(code, cause)` is the same for every
cause, and its description part is the entry of the table `errorStatus` at the code. -/
theorem New_A012_message_contains_record_exists {ε : Type} (cause : Option ε) :
    containsSubstring (New "A012" cause).Error "record already exists" ∧
    (∀ (code : ErrorCode) (c1 c2 : Option ε), (New code c1).Error = (New code c2).Error) ∧
    (∀ code : ErrorCode,
      (New code cause).Error = "Code <" ++ code ++ ">: " ++ mapIndex errorStatus code) ∧
    mapIndex errorStatus "A012" = "record already exists" := by
  refine ⟨⟨"Code <A012>: ".data, [], by rfl⟩, fun _ _ _ => rfl, fun _ => rfl, by decide⟩

/-- C9: for every error code, listed in the table or not, and every cause, `New`
returns an `Error` (it is a total function) whose `Debug()` is exactly the cause
passed in. -/
theorem New_Debug_returns_cause {ε : Type} (code : ErrorCode) (cause : Option ε) :
    (New code cause).Debug = cause := by
  rfl

end errorz

/-! ## Command-line arguments -/

namespace configs

/-- C1: evaluation of `ParseCMDArgs` at values of the `env` option that no `case`
lists. For `-env=PROD`, `-env=` and `-env=test` the returned `Environment` is the
empty string, the zero value of the field, and not `EnvDev`. -/
theorem ParseCMDArgs_unrecognized_gives_empty_environment :
    ParseCMDArgs (some "PROD") = { Environment := "" } ∧
    ParseCMDArgs (some "") = { Environment := "" } ∧
    ParseCMDArgs (some "test") = { Environment := "" } ∧
    (ParseCMDArgs (some "PROD")).Environment ≠ EnvDev ∧
    (ParseCMDArgs (some "")).Environment ≠ EnvDev := by
  decide

/-- C2: each recognized literal of the `env` option gives its environment: "dev" and
"development" give development, "staging" gives staging, "prod" and "production"
give production. -/
theorem ParseCMDArgs_recognized_literals :
    (ParseCMDArgs (some "dev")).Environment = "development" ∧
    (ParseCMDArgs (some "development")).Environment = "development" ∧
    (ParseCMDArgs (some "staging")).Environment = "staging" ∧
    (ParseCMDArgs (some "prod")).Environment = "production" ∧
    (ParseCMDArgs (some "production")).Environment = "production" := by
  decide

/-- C7: when the `env` option is absent the variable holds the registered default
`EnvDev`, and `ParseCMDArgs` returns `Environment = "development"`. -/
theorem ParseCMDArgs_absent_option_is_development :
    flagStringVar EnvDev none = "development" ∧
    ParseCMDArgs none = { Environment := EnvDev } ∧
    (ParseCMDArgs none).Environment = "development" := by
  decide

/-! ## Projection of the decoded document -/

/-- C3: for every decoded document the projected configuration has `DB.SSL = true`
and `DB.SSLMode = "require"`. -/
theorem GetConfig_ssl_always_required (cfg : YamlConfig) :
    (GetConfig cfg).DB.SSL = true ∧ (GetConfig cfg).DB.SSLMode = "require" := by
  exact ⟨rfl, rfl⟩

/-- C4: `GetConfig` copies the port of the application and the client, user, host,
port, name and the three certificate paths of the database verbatim; the document of
the end-to-end example projects to the configuration the specification lists. -/
theorem GetConfig_copies_fields (c : YamlConfig) :
    (GetConfig c).Port = c.Application.Port ∧
    (GetConfig c).DB.Client = c.Database.Client ∧
    (GetConfig c).DB.User = c.Database.User ∧
    (GetConfig c).DB.Host = c.Database.Host ∧
    (GetConfig c).DB.Port = c.Database.Port ∧
    (GetConfig c).DB.DBName = c.Database.Name ∧
    (GetConfig c).DB.SSLCert = c.Database.SSLCertPath ∧
    (GetConfig c).DB.SSLKey = c.Database.SSLKeyPath ∧
    (GetConfig c).DB.RootCert = c.Database.RootCertPath ∧
    (∀ password : String,
      GetConfig (exampleYaml password) =
        { Port := 8080,
          DB :=
            { Client := "postgres", User := "u", Host := "h", Port := 5432, DBName := "db",
              SSL := true, SSLMode := "require", SSLCert := "c.pem", SSLKey := "k.pem",
              RootCert := "r.pem" } }) := by
  exact ⟨rfl, rfl, rfl, rfl, rfl, rfl, rfl, rfl, rfl, fun _ => rfl⟩

/-- C10: two decoded documents that differ only in `database.password` project to
equal configurations, hence to the same `String()` and the same `Stringify()`
connection strings. -/
theorem GetConfig_independent_of_password (a b : YamlConfig) (h : sameExceptPassword a b) :
    GetConfig a = GetConfig b ∧
    (GetConfig a).DB.String = (GetConfig b).DB.String ∧
    (GetConfig a).DB.Stringify = (GetConfig b).DB.Stringify := by
  obtain ⟨h1, h2, h3, h4, h5, h6, h7, h8, h9⟩ := h
  have hcfg : GetConfig a = GetConfig b := by
    simp [GetConfig, h1, h2, h3, h4, h5, h6, h7, h8, h9]
  exact ⟨hcfg, by rw [hcfg], by rw [hcfg]⟩

/-- Witness for C10: the example document with two different passwords. -/
theorem GetConfig_independent_of_password_witness :
    sameExceptPassword (exampleYaml "s3cret") (exampleYaml "hunter2") ∧
    (exampleYaml "s3cret").Database.Password ≠ (exampleYaml "hunter2").Database.Password ∧
    (GetConfig (exampleYaml "s3cret") = GetConfig (exampleYaml "hunter2") ∧
      (GetConfig (exampleYaml "s3cret")).DB.String
        = (GetConfig (exampleYaml "hunter2")).DB.String ∧
      (GetConfig (exampleYaml "s3cret")).DB.Stringify
        = (GetConfig (exampleYaml "hunter2")).DB.Stringify) :=
  ⟨by decide, by decide,
    GetConfig_independent_of_password (exampleYaml "s3cret") (exampleYaml "hunter2") (by decide)⟩

/-! ## Reading the YAML file -/

/-- C5: the table `envYamlMapping` maps development to "config.dev.yml", staging to
"config.staging.yml" and production to "config.yml", and in any world the only path
`ReadYaml` passes to `os.Open` is the table entry of the environment: exactly that
one path for each of the three environments. -/
theorem ReadYaml_opens_exactly_mapped_path {ε φ : Type} (sys : Sys ε φ) :
    mapIndex envYamlMapping "development" = "config.dev.yml" ∧
    mapIndex envYamlMapping "staging" = "config.staging.yml" ∧
    mapIndex envYamlMapping "production" = "config.yml" ∧
    (∀ cmdArgs : CmdArgsConfig,
      openedPaths (ReadYamlTraced sys cmdArgs).2
        = [mapIndex envYamlMapping cmdArgs.Environment]) ∧
    openedPaths (ReadYamlTraced sys { Environment := EnvDev }).2 = ["config.dev.yml"] ∧
    openedPaths (ReadYamlTraced sys { Environment := EnvStaging }).2 = ["config.staging.yml"] ∧
    openedPaths (ReadYamlTraced sys { Environment := EnvProd }).2 = ["config.yml"] := by
  refine ⟨by decide, by decide, by decide, ReadYamlTraced_openedPaths sys, ?_, ?_, ?_⟩
  · rw [ReadYamlTraced_openedPaths, mapIndex_envYamlMapping_dev]
  · rw [ReadYamlTraced_openedPaths, mapIndex_envYamlMapping_staging]
  · rw [ReadYamlTraced_openedPaths, mapIndex_envYamlMapping_prod]

/-- C6: `ReadYaml` returns a non-nil error exactly when `os.Open` fails or the decoder
fails. When `os.Open` fails with `e`, or the decoder fails with `e` (whatever it has
written into the config by then), the result is the zero `YamlConfig` with that same
`e`; when both succeed the result is the decoded config with a nil error. -/
theorem ReadYaml_error_contract {ε φ : Type} (sys : Sys ε φ) (cmdArgs : CmdArgsConfig) :
    (∀ e : ε, sys.osOpen (mapIndex envYamlMapping cmdArgs.Environment) = .error e →
      ReadYaml sys cmdArgs = (YamlConfig.zero, some e)) ∧
    (∀ (f : φ) (c : YamlConfig) (e : ε),
      sys.osOpen (mapIndex envYamlMapping cmdArgs.Environment) = .ok f →
      sys.yamlDecode f YamlConfig.zero = (c, some e) →
      ReadYaml sys cmdArgs = (YamlConfig.zero, some e)) ∧
    (∀ (f : φ) (c : YamlConfig),
      sys.osOpen (mapIndex envYamlMapping cmdArgs.Environment) = .ok f →
      sys.yamlDecode f YamlConfig.zero = (c, none) →
      ReadYaml sys cmdArgs = (c, none)) ∧
    ((ReadYaml sys cmdArgs).2 ≠ none ↔
      ((∃ e : ε, sys.osOpen (mapIndex envYamlMapping cmdArgs.Environment) = .error e) ∨
        ∃ f : φ, sys.osOpen (mapIndex envYamlMapping cmdArgs.Environment) = .ok f ∧
          (sys.yamlDecode f YamlConfig.zero).2 ≠ none)) := by
  refine ⟨ReadYaml_of_open_error sys cmdArgs, ReadYaml_of_decode_error sys cmdArgs,
    ReadYaml_of_decode_ok sys cmdArgs, ?_⟩
  cases hopen : sys.osOpen (mapIndex envYamlMapping cmdArgs.Environment) with
  | error e =>
    rw [ReadYaml_of_open_error sys cmdArgs e hopen]
    simp
  | ok f =>
    rcases hdec : sys.yamlDecode f YamlConfig.zero with ⟨c, _ | e⟩
    · rw [ReadYaml_of_decode_ok sys cmdArgs f c hopen hdec]
      simp [hdec]
    · rw [ReadYaml_of_decode_error sys cmdArgs f c e hopen hdec]
      simp [hdec]

/-- Witness for C6 in the sample world: production has no file, so the open error
comes back with the zero config; the development file fails to decode after the port
was written, and the zero config comes back with the decoder error; the staging file
decodes, and the decoded config comes back with a nil error. -/
theorem ReadYaml_error_contract_witness :
    ReadYaml sampleSys { Environment := "production" }
      = (YamlConfig.zero, some "open: no such file or directory") ∧
    ReadYaml sampleSys { Environment := "development" }
      = (YamlConfig.zero, some "yaml: line 2: cannot decode") ∧
    ReadYaml sampleSys { Environment := "staging" } = (exampleYaml "s3cret", none) :=
  ⟨(ReadYaml_error_contract sampleSys { Environment := "production" }).1
      "open: no such file or directory" (by rfl),
    (ReadYaml_error_contract sampleSys { Environment := "development" }).2.1 3
      { YamlConfig.zero with Application := { Port := 8080 } }
      "yaml: line 2: cannot decode" (by rfl) (by decide),
    (ReadYaml_error_contract sampleSys { Environment := "staging" }).2.2.1 4
      (exampleYaml "s3cret") (by rfl) (by decide)⟩

end configs
